import Mathlib

/-!
Verification of the SAP CI/CD platform backend (`backend/sap_client.py`,
`backend/main.py`, `backend/models.py`) against its natural-language
specification.  The Python code is shallowly embedded: JSON values become an
inductive type, each relevant Python function becomes an executable Lean
function over that type, HTTP interactions are modelled by a script of
outcomes consumed request by request, and datetimes become integer seconds.
Python exceptions that a function catches internally are folded into the
value the handler returns; exceptions that escape are modelled with
`Option`/`Except`.
-/

/-- JSON values as returned by `response.json()`.  Numbers are modelled as
integers (no claim depends on fractional values). -/
inductive JValue : Type where
  | null : JValue
  | bool : Bool → JValue
  | num : Int → JValue
  | str : String → JValue
  | arr : List JValue → JValue
  | obj : List (String × JValue) → JValue
deriving Repr

/-- First-match association lookup, the semantics of `d[k]` / `k in d` for a
Python dict rendered as an ordered field list (Python dict keys are unique,
so first match is the only match). -/
def jLookup : List (String × JValue) → String → Option JValue
  | [], _ => none
  | (k, v) :: rest, key => if k = key then some v else jLookup rest key

/-- Python `d.get(key, default)` on a value already known to be a dict. -/
def dictGet (fs : List (String × JValue)) (key : String) (dflt : JValue) : JValue :=
  (jLookup fs key).getD dflt

/-- Python `d.get(k1, d.get(k2, default))`: the inner `get` is evaluated as
the default of the outer one. -/
def dictGet2 (fs : List (String × JValue)) (k1 k2 : String) (dflt : JValue) : JValue :=
  (jLookup fs k1).getD ((jLookup fs k2).getD dflt)

/-- Whether a JSON value is a Python dict. -/
def JValue.isObj : JValue → Bool
  | .obj _ => true
  | _ => false

/-- Field access on a normalized record (a dict): `record[key]`. -/
def jField (record : JValue) (key : String) : Option JValue :=
  match record with
  | .obj fs => jLookup fs key
  | _ => none

/-- One outcome of an outbound HTTP request: either the connection timed out
(`httpx` raises), or a response with a status code and a body; `none` as the
body models a payload that `response.json()` fails to parse. -/
inductive HttpOutcome : Type where
  | timeout : HttpOutcome
  | resp (status : Nat) (body : Option JValue) : HttpOutcome

/-- The i-th outcome of a request script; scripts too short to cover a
request default to a timeout. -/
def scriptAt (script : List HttpOutcome) (i : Nat) : HttpOutcome :=
  (script.get? i).getD .timeout

/-- From `backend/main.py` lines 284-301 (module-level enhanced
`get_iflow_configurations`): envelope normalization of a 200 body.  Checked
in source order: a `"d"` key holding a dict with `"results"` or a direct
list, then top-level `"results"`, `"configurations"`, `"value"`, then the
body itself when it is a list, otherwise the empty list. -/
def extractEnvelope (data : JValue) : JValue :=
  match data with
  | .obj fs =>
    match jLookup fs "d" with
    | some dval =>
      match dval with
      | .obj ds =>
        match jLookup ds "results" with
        | some r => r
        | none => .arr []
      | .arr l => .arr l
      | _ => .arr []
    | none =>
      match jLookup fs "results" with
      | some r => r
      | none =>
        match jLookup fs "configurations" with
        | some c => c
        | none =>
          match jLookup fs "value" with
          | some v => v
          | none => .arr []
  | .arr l => .arr l
  | _ => .arr []

/-- From `backend/main.py` lines 308-318: a single record of the cleaning
loop.  A record that is a dict is rebuilt with the five output fields, each
looked up under its prioritized key spellings with a default; every value is
copied through verbatim (no type coercion appears in the source).  A record
that is not a dict fails the `isinstance(config, dict)` guard and is
skipped. -/
def cleanConfig (config : JValue) : Option JValue :=
  match config with
  | .obj fs => some (.obj [
      ("ParameterKey", dictGet2 fs "ParameterKey" "Key" (.str "")),
      ("ParameterValue", dictGet2 fs "ParameterValue" "Value" (.str "")),
      ("DataType", dictGet2 fs "DataType" "Type" (.str "string")),
      ("Description", dictGet fs "Description" (.str "")),
      ("Mandatory", dictGet2 fs "Mandatory" "Required" (.bool false))])
  | _ => none

/-- The cleaning loop `for config in configurations` over the extracted
envelope value.  Iterating a dict yields its keys and iterating a string
yields characters, none of which are dicts, so those cases produce the empty
list; iterating a non-iterable raises `TypeError`, which the enclosing
handler turns into the empty list as well. -/
def cleanConfigurations (configurations : JValue) : List JValue :=
  match configurations with
  | .arr l => l.filterMap cleanConfig
  | _ => []

/-- `data.get("d", {}).get("results", [])`, the extraction used by
`SAPClient.get_iflow_configurations` (`backend/sap_client.py` line 272) and
by the 401-retry path of the enhanced fetch (`backend/main.py` line 339).
Calling `.get` on a non-dict raises `AttributeError`; both call sites catch
it and return the empty list, so the exception is folded into `.arr []`. -/
def rawDResults (data : JValue) : JValue :=
  match data with
  | .obj fs =>
    match (jLookup fs "d").getD (.obj []) with
    | .obj ds => (jLookup ds "results").getD (.arr [])
    | _ => .arr []
  | _ => .arr []

/-- `len(configurations)` is computed for logging right after extraction in
`SAPClient.get_iflow_configurations`; `len` on a value without a length
raises, and the catch-all handler returns the empty list. -/
def pyLenGuard (v : JValue) : JValue :=
  match v with
  | .arr _ => v
  | .obj _ => v
  | .str _ => v
  | _ => .arr []

/-- From `backend/sap_client.py` lines 258-281,
`SAPClient.get_iflow_configurations`: one GET; a 200 yields
`d.results`, every other status (and every exception, including timeouts
and JSON parse failures) yields the empty list.  Result: the returned
configurations value and the number of resource requests issued. -/
def sapGetIflowConfigurations (script : List HttpOutcome) : JValue × Nat :=
  match scriptAt script 0 with
  | .timeout => (.arr [], 1)
  | .resp status body =>
    if status = 200 then
      match body with
      | none => (.arr [], 1)
      | some data => (pyLenGuard (rawDResults data), 1)
    else (.arr [], 1)

/-- Result of the enhanced fetch: the returned configurations value, the
number of resource requests issued, and the number of token refreshes
performed. -/
structure FetchResult where
  configs : JValue
  requests : Nat
  refreshes : Nat
deriving Repr

/-- From `backend/main.py` lines 256-358 (module-level enhanced
`get_iflow_configurations`): one GET; 200 normalizes the envelope and cleans
the records; 404 returns empty; 401 refreshes the token once
(`refreshOk = false` models `_refresh_token` raising, which the outer
handler maps to the empty list) and retries exactly once, keeping
`d.results` of a 200 retry raw; any other status, timeout, or JSON parse
failure returns empty. -/
def enhancedGetIflowConfigurations (refreshOk : Bool) (script : List HttpOutcome) :
    FetchResult :=
  match scriptAt script 0 with
  | .timeout => ⟨.arr [], 1, 0⟩
  | .resp status body =>
    if status = 200 then
      match body with
      | none => ⟨.arr [], 1, 0⟩
      | some data => ⟨.arr (cleanConfigurations (extractEnvelope data)), 1, 0⟩
    else if status = 404 then ⟨.arr [], 1, 0⟩
    else if status = 401 then
      if refreshOk then
        match scriptAt script 1 with
        | .timeout => ⟨.arr [], 2, 1⟩
        | .resp s2 b2 =>
          if s2 = 200 then
            match b2 with
            | none => ⟨.arr [], 2, 1⟩
            | some data2 => ⟨rawDResults data2, 2, 1⟩
          else ⟨.arr [], 2, 1⟩
      else ⟨.arr [], 1, 1⟩
    else ⟨.arr [], 1, 0⟩

/-- `httpx.Response.is_success`: status in [200, 300). -/
def isSuccessStatus (s : Nat) : Bool := 200 ≤ s && s < 300

/-- Result of `_make_authenticated_request`: the response (or the message of
the exception that escapes), the number of resource requests issued, and the
number of token refreshes performed. -/
structure MARResult where
  outcome : Except String (Nat × Option JValue)
  requests : Nat
  refreshes : Nat

/-- From `backend/sap_client.py` lines 109-136,
`SAPClient._make_authenticated_request`: ensure a token (refreshing when the
cached one is invalid; a failed refresh raises before any resource request),
issue the request, on a 401 clear the token, refresh exactly once and retry
exactly once, then raise unless the final response is a success.  There is
no retry for any status other than 401 and no backoff. -/
def makeAuthenticatedRequest (tokenValidAtEntry refreshOk : Bool)
    (script : List HttpOutcome) : MARResult :=
  if tokenValidAtEntry = false && refreshOk = false then
    ⟨.error "Authentication failed", 0, 1⟩
  else
    let entryRefreshes := if tokenValidAtEntry then 0 else 1
    match scriptAt script 0 with
    | .timeout => ⟨.error "network error", 1, entryRefreshes⟩
    | .resp status body =>
      if status = 401 then
        if refreshOk = false then
          ⟨.error "Authentication failed", 1, entryRefreshes + 1⟩
        else
          match scriptAt script 1 with
          | .timeout => ⟨.error "network error", 2, entryRefreshes + 1⟩
          | .resp s2 b2 =>
            if isSuccessStatus s2 then ⟨.ok (s2, b2), 2, entryRefreshes + 1⟩
            else ⟨.error "API request failed", 2, entryRefreshes + 1⟩
      else if isSuccessStatus status then ⟨.ok (status, body), 1, entryRefreshes⟩
      else ⟨.error "API request failed", 1, entryRefreshes⟩

/-- The refresh buffer of `SAPClient._is_token_valid`
(`backend/sap_client.py` line 106): `timedelta(minutes=5)`, in seconds. -/
def refreshBufferSeconds : Int := 300

/-- The `TokenInfo` state relevant to validity checks: the cached access
token and its `expires_at` timestamp (seconds). -/
structure TokenInfoM where
  accessToken : String
  expiresAt : Option Int

/-- From `backend/sap_client.py` lines 100-107, `SAPClient._is_token_valid`:
false when no token or no expiry is cached, otherwise
`now < expires_at - 5 minutes`. -/
def isTokenValid (tokenInfo : Option TokenInfoM) (now : Int) : Bool :=
  match tokenInfo with
  | none => false
  | some ti =>
    match ti.expiresAt with
    | none => false
    | some e => decide (now < e - refreshBufferSeconds)

/-- From `backend/sap_client.py` lines 624-629, `SAPClient._is_token_expired`:
the token counts as expired when it expires within 60 seconds
(`now + 60s >= token_expiry`; `token_expiry` is a datetime, hence always
truthy, so the `if not self.token_expiry` guard never fires). -/
def isTokenExpired (now tokenExpiry : Int) : Bool :=
  decide (now + 60 ≥ tokenExpiry)

/-- From `backend/sap_client.py` lines 588-596, `SAPClient._get_auth_headers`:
the cached `oauth_token` is attached to the outgoing request without a
refresh exactly when it is nonempty and `_is_token_expired` is false. -/
def authHeadersUsesCachedToken (oauthToken : String) (tokenExpiry now : Int) : Bool :=
  !(oauthToken = "") && !(isTokenExpired now tokenExpiry)

/-- Program counter of one caller coroutine inside `SAPClient.get_token`
(`backend/sap_client.py` lines 58-98).  `ready`: about to run the validity
check; `awaitingPost`: suspended at `await self.client.post(...)` after
observing an invalid cache; `done`: returned. -/
inductive CallerPC : Type where
  | ready : CallerPC
  | awaitingPost : CallerPC
  | done : CallerPC
deriving Repr, DecidableEq

/-- Shared state of K concurrent callers of `get_token` under cooperative
(asyncio) scheduling: the token cache, each caller's program counter, and
the number of POSTs issued to the token endpoint.  `get_token` holds no
lock, so the only atomicity is between awaits: the validity check and the
start of the POST run atomically, and the cache write happens when the POST
completes. -/
structure TokenSys where
  tokenValid : Bool
  callers : List CallerPC
  posts : Nat
deriving Repr, DecidableEq

/-- Run caller `i` until its next suspension point or its return, exactly as
`get_token` is written: a ready caller whose validity check passes returns
the cached token at once; one whose check fails issues a POST and suspends;
a suspended caller resumes by storing the fresh token and returning. -/
def stepCaller (s : TokenSys) (i : Nat) : TokenSys :=
  match s.callers.get? i with
  | some .ready =>
    if s.tokenValid then { s with callers := s.callers.set i .done }
    else { s with callers := s.callers.set i .awaitingPost, posts := s.posts + 1 }
  | some .awaitingPost => { s with callers := s.callers.set i .done, tokenValid := true }
  | _ => s

/-- Execute a schedule: the event loop picks the named caller at each
step. -/
def runSchedule (s : TokenSys) (sched : List Nat) : TokenSys :=
  sched.foldl stepCaller s

/-- K concurrent callers entering `get_token` while no valid token is
cached. -/
def initTokenSys (k : Nat) : TokenSys :=
  ⟨false, List.replicate k .ready, 0⟩

/-- One entry of `SaveConfigurationRequest.iflows` (`backend/main.py` lines
450-454); `configurations` keeps the insertion order of the Python dict. -/
structure IFlowConfigurationData where
  iflowId : String
  iflowName : String
  version : String
  configurations : List (String × String)

/-- The request body of `POST /api/save-iflow-configurations`
(`backend/main.py` lines 456-459). -/
structure SaveConfigurationRequest where
  environment : String
  timestamp : String
  iflows : List IFlowConfigurationData

/-- One CSV row as built in `backend/main.py` lines 487-496. -/
structure CsvRow where
  environment : String
  timestamp : String
  iflowId : String
  iflowName : String
  iflowVersion : String
  parameterKey : String
  parameterValue : String
  savedAt : String
deriving Repr, DecidableEq

/-- The fixed header list of `backend/main.py` lines 499-508. -/
def csvHeaders : List String :=
  ["Environment", "Timestamp", "iFlow_ID", "iFlow_Name", "iFlow_Version",
   "Parameter_Key", "Parameter_Value", "Saved_At"]

/-- The cells of a row in the order `csv.DictWriter` emits them (the
`fieldnames` order, i.e. `csvHeaders`). -/
def CsvRow.cells (r : CsvRow) : List String :=
  [r.environment, r.timestamp, r.iflowId, r.iflowName, r.iflowVersion,
   r.parameterKey, r.parameterValue, r.savedAt]

/-- The row appended for one (iflow, parameter) pair (`backend/main.py`
lines 487-496); `savedAt` is `datetime.now().isoformat()` at save time. -/
def paramRow (req : SaveConfigurationRequest) (savedAt : String)
    (iflow : IFlowConfigurationData) (kv : String × String) : CsvRow :=
  ⟨req.environment, req.timestamp, iflow.iflowId, iflow.iflowName,
   iflow.version, kv.1, kv.2, savedAt⟩

/-- The nested loop of `backend/main.py` lines 484-496 building `csv_data`:
for each iflow, for each configuration parameter, append one row. -/
def buildCsvData (req : SaveConfigurationRequest) (savedAt : String) : List CsvRow :=
  req.iflows.foldl
    (fun acc iflow =>
      iflow.configurations.foldl (fun acc2 kv => acc2 ++ [paramRow req savedAt iflow kv]) acc)
    []

/-- `iflow_configurations_{environment}_{timestamp_str}.csv`
(`backend/main.py` line 474); `nowStamp` is `datetime.now()` formatted
`%Y%m%d_%H%M%S`. -/
def timestampedFilename (environment nowStamp : String) : String :=
  "iflow_configurations_" ++ environment ++ "_" ++ nowStamp ++ ".csv"

/-- `iflow_configurations_{environment}_latest.csv` (`backend/main.py` line
478). -/
def latestFilename (environment : String) : String :=
  "iflow_configurations_" ++ environment ++ "_latest.csv"

/-- A CSV file as written by `csv.DictWriter`: its name, its header row, and
its data rows. -/
structure CsvFile where
  filename : String
  header : List String
  rows : List CsvRow

/-- From `backend/main.py` lines 465-524, `save_iflow_configurations`: build
the row list once and write it with the fixed header to the timestamped file
and to the environment's latest file. -/
def saveIflowConfigurations (req : SaveConfigurationRequest)
    (nowStamp savedAt : String) : List CsvFile :=
  let rows := buildCsvData req savedAt
  [⟨timestampedFilename req.environment nowStamp, csvHeaders, rows⟩,
   ⟨latestFilename req.environment, csvHeaders, rows⟩]

/-- The `IntegrationPackage` model (`backend/models.py` lines 19-27) with
the field values `SAPClient.get_integration_packages` actually constructs:
`description` and `version` are always strings there (`or ''` /
`or '1.0.0'` defaults). -/
structure IntegrationPackage where
  id : String
  name : String
  description : String
  version : String
  modifiedDate : Option String
  modifiedBy : Option String
  createdDate : Option String
  createdBy : Option String
deriving Repr, DecidableEq

/-- The hardcoded fallback of `backend/sap_client.py` lines 176-193; `now`
is `datetime.now().isoformat()` at fallback time. -/
def demoPackages (now : String) : List IntegrationPackage :=
  [{ id := "demo_package_001", name := "Demo Customer Integration Package",
     description := "Sample integration package for testing", version := "1.0.0",
     modifiedDate := some now, modifiedBy := some "demo_user",
     createdDate := none, createdBy := none },
   { id := "demo_package_002", name := "Demo Sales Integration Package",
     description := "Sales data integration package", version := "1.1.0",
     modifiedDate := some now, modifiedBy := some "demo_user",
     createdDate := none, createdBy := none }]

/-- Pydantic v1 coercion to `str`: strings pass through, numbers and bools
are stringified (bool is an int subclass in Python), everything else fails
validation (the raised error is caught by the fallback handler). -/
def pyToStr : JValue → Option String
  | .str s => some s
  | .num n => some (toString n)
  | .bool b => some (if b then "True" else "False")
  | _ => none

/-- Pydantic v1 coercion to `Optional[str]`: `None` stays `None`, otherwise
as `pyToStr`. -/
def pyToOptStr : JValue → Option (Option String)
  | .null => some none
  | v => (pyToStr v).map some

/-- Python truthiness, for the `or` defaults in package construction. -/
def jFalsy : JValue → Bool
  | .null => true
  | .bool b => !b
  | .num n => decide (n = 0)
  | .str s => decide (s = "")
  | .arr l => l.isEmpty
  | .obj fs => fs.isEmpty

/-- Python `a or b`. -/
def pyOr (v dflt : JValue) : JValue := if jFalsy v then dflt else v

/-- `items = data.get('d', {}).get('results', []) if 'd' in data else
data.get('results', data)` (`backend/sap_client.py` line 152).  `none`
models an exception inside the `try` block (membership test or `.get` on a
value without them), which the handler converts to the demo fallback. -/
def packagesItems (data : JValue) : Option JValue :=
  match data with
  | .obj fs =>
    match jLookup fs "d" with
    | some dval =>
      match dval with
      | .obj ds => some ((jLookup ds "results").getD (.arr []))
      | _ => none
    | none => some ((jLookup fs "results").getD (.obj fs))
  | _ => none

/-- `if isinstance(items, dict): items = [items]` (`backend/sap_client.py`
lines 153-154). -/
def normalizeItems (items : JValue) : JValue :=
  match items with
  | .obj _ => .arr [items]
  | _ => items

/-- One iteration of the package loop (`backend/sap_client.py` lines
156-167): `item.get` requires a dict, and pydantic validates each field. -/
def parseItem (item : JValue) : Option IntegrationPackage :=
  match item with
  | .obj fs => do
    let id ← pyToStr (dictGet fs "Id" (.str ""))
    let name ← pyToStr (dictGet fs "Name" (.str ""))
    let description ← pyToStr (pyOr (dictGet fs "Description" .null) (.str ""))
    let version ← pyToStr (pyOr (dictGet fs "Version" .null) (.str "1.0.0"))
    let modifiedDate ← pyToOptStr (dictGet fs "ModifiedDate" .null)
    let modifiedBy ← pyToOptStr (dictGet fs "ModifiedBy" .null)
    let createdDate ← pyToOptStr (dictGet fs "CreatedDate" .null)
    let createdBy ← pyToOptStr (dictGet fs "CreatedBy" .null)
    pure ⟨id, name, description, version, modifiedDate, modifiedBy, createdDate, createdBy⟩
  | _ => none

/-- `for item in items` over the normalized items.  A list is traversed
item by item; iterating a string visits its characters (so only the empty
string completes without an `item.get` failure); anything else raises.
`none` again means an exception reaching the fallback handler. -/
def parseItems : JValue → Option (List IntegrationPackage)
  | .arr l => l.mapM parseItem
  | .str s => if s = "" then some [] else none
  | _ => none

/-- From `backend/sap_client.py` lines 138-196,
`SAPClient.get_integration_packages`: on a successful upstream response
parse the packages; on any exception anywhere in the `try` block — network
failure, authentication failure inside `_make_authenticated_request`,
unparseable JSON (all modelled by `Except.error`) or a parse failure of the
payload — return the two hardcoded demo packages.  The function never
raises. -/
def getIntegrationPackages (upstream : Except String JValue) (now : String) :
    List IntegrationPackage :=
  match upstream with
  | .error _ => demoPackages now
  | .ok data =>
    match packagesItems data with
    | none => demoPackages now
    | some items =>
      match parseItems (normalizeItems items) with
      | none => demoPackages now
      | some pkgs => pkgs

/-- From `backend/main.py` lines 205-218 (the
`/api/sap/iflows/.../configurations` endpoint): per-record transform of a
configuration into the frontend shape.  Every field, `Mandatory` included,
is copied with `config.get(key, default)` and no coercion; a record that is
not a dict makes `config.get` raise inside the per-record `try`, and the
record is skipped. -/
def endpointParameter (config : JValue) : Option JValue :=
  match config with
  | .obj fs => some (.obj [
      ("ParameterKey", dictGet fs "ParameterKey" (.str "")),
      ("ParameterValue", dictGet fs "ParameterValue" (.str "")),
      ("DataType", dictGet fs "DataType" (.str "string")),
      ("Description", dictGet fs "Description" (.str "")),
      ("Mandatory", dictGet fs "Mandatory" (.bool false))])
  | _ => none

/-- A record survives the cleaning loop exactly when it is a dict. -/
theorem cleanConfig_isSome (c : JValue) : (cleanConfig c).isSome = c.isObj := by
  cases c <;> rfl

/-- The cleaning loop keeps one output record per dict input record. -/
theorem cleanConfigurations_arr_length (xs : List JValue) :
    (cleanConfigurations (.arr xs)).length = (xs.filter JValue.isObj).length := by
  induction xs with
  | nil => rfl
  | cons c xs ih =>
    show (List.filterMap cleanConfig (c :: xs)).length = _
    cases c <;>
      simp [List.filterMap_cons, List.filter_cons, cleanConfig, JValue.isObj] <;>
      simpa [cleanConfigurations] using ih

/-- Folding appends of singletons equals mapping. -/
theorem foldl_append_singleton {α β : Type} (f : α → β) (l : List α) (acc : List β) :
    l.foldl (fun a x => a ++ [f x]) acc = acc ++ l.map f := by
  induction l generalizing acc with
  | nil => simp
  | cons x xs ih => simp [ih]

/-- Folding appends of chunks equals concatenating the chunks. -/
theorem foldl_append_flatMap {α β : Type} (g : α → List β) (l : List α) (acc : List β) :
    l.foldl (fun a x => a ++ g x) acc = acc ++ l.flatMap g := by
  induction l generalizing acc with
  | nil => simp
  | cons x xs ih => simp [ih]

/-- The nested csv loop builds exactly one row per (iflow, parameter)
pair, in order. -/
theorem buildCsvData_eq (req : SaveConfigurationRequest) (savedAt : String) :
    buildCsvData req savedAt
      = req.iflows.flatMap (fun fl => fl.configurations.map (paramRow req savedAt fl)) := by
  unfold buildCsvData
  simp only [foldl_append_singleton, foldl_append_flatMap, List.nil_append]

/-- Claim C4: envelope normalization on a 200 response checks, first-match
wins, a "d" key holding a dict with "results" or a direct list, then
top-level "results", then "configurations", then "value", else the body
itself when it is a list, otherwise the empty list; the three inputs
`(d.results [⦃Key: a⦄])`, `(results [⦃Key: a⦄])` and `[⦃Key: a⦄]` all
normalize to the same single-record sequence whose ParameterKey is "a". -/
theorem envelope_normalization_confirmed :
    enhancedGetIflowConfigurations true
        [.resp 200 (some (.obj [("d", .obj [("results", .arr [.obj [("Key", .str "a")]])])]))]
      = ⟨.arr [.obj [("ParameterKey", .str "a"), ("ParameterValue", .str ""),
          ("DataType", .str "string"), ("Description", .str ""),
          ("Mandatory", .bool false)]], 1, 0⟩
  ∧ enhancedGetIflowConfigurations true
        [.resp 200 (some (.obj [("results", .arr [.obj [("Key", .str "a")]])]))]
      = ⟨.arr [.obj [("ParameterKey", .str "a"), ("ParameterValue", .str ""),
          ("DataType", .str "string"), ("Description", .str ""),
          ("Mandatory", .bool false)]], 1, 0⟩
  ∧ enhancedGetIflowConfigurations true
        [.resp 200 (some (.arr [.obj [("Key", .str "a")]]))]
      = ⟨.arr [.obj [("ParameterKey", .str "a"), ("ParameterValue", .str ""),
          ("DataType", .str "string"), ("Description", .str ""),
          ("Mandatory", .bool false)]], 1, 0⟩
  ∧ jField (.obj [("ParameterKey", .str "a"), ("ParameterValue", .str ""),
        ("DataType", .str "string"), ("Description", .str ""),
        ("Mandatory", .bool false)]) "ParameterKey" = some (.str "a")
  ∧ extractEnvelope (.obj [("d", .obj [("results", .arr [.str "D"])]),
        ("results", .arr [.str "R"]), ("configurations", .arr [.str "C"]),
        ("value", .arr [.str "V"])]) = .arr [.str "D"]
  ∧ extractEnvelope (.obj [("d", .arr [.str "DL"]), ("results", .arr [.str "R"])])
      = .arr [.str "DL"]
  ∧ extractEnvelope (.obj [("results", .arr [.str "R"]),
        ("configurations", .arr [.str "C"]), ("value", .arr [.str "V"])])
      = .arr [.str "R"]
  ∧ extractEnvelope (.obj [("configurations", .arr [.str "C"]),
        ("value", .arr [.str "V"])]) = .arr [.str "C"]
  ∧ extractEnvelope (.obj [("value", .arr [.str "V"])]) = .arr [.str "V"]
  ∧ extractEnvelope (.obj [("other", .arr [.str "X"])]) = .arr []
  ∧ extractEnvelope (.arr [.str "B"]) = .arr [.str "B"]
  ∧ extractEnvelope (.str "not a list") = .arr [] :=
  ⟨rfl, rfl, rfl, rfl, rfl, rfl, rfl, rfl, rfl, rfl, rfl, rfl⟩

/-- Claim C6: a configuration fetch that receives a 404 returns the empty
sequence without raising, both in `SAPClient.get_iflow_configurations` and
in the enhanced module-level version. -/
theorem notfound_empty_confirmed :
    ∀ (body : Option JValue) (rest : List HttpOutcome) (refreshOk : Bool),
      sapGetIflowConfigurations (.resp 404 body :: rest) = (.arr [], 1)
      ∧ enhancedGetIflowConfigurations refreshOk (.resp 404 body :: rest)
          = ⟨.arr [], 1, 0⟩ := by
  intro body rest refreshOk
  exact ⟨rfl, rfl⟩

/-- Claim C7 fails on the code: the enhanced cleaning copies the upstream
`Mandatory` value through verbatim, so the upstream string "true" stays the
string "true" and the number 1 stays the number 1 — neither becomes the
boolean true that the claim requires. -/
theorem mandatory_passthrough_counterexample :
    cleanConfig (.obj [("Mandatory", .str "true")])
      = some (.obj [("ParameterKey", .str ""), ("ParameterValue", .str ""),
          ("DataType", .str "string"), ("Description", .str ""),
          ("Mandatory", .str "true")])
  ∧ cleanConfig (.obj [("Mandatory", .num 1)])
      = some (.obj [("ParameterKey", .str ""), ("ParameterValue", .str ""),
          ("DataType", .str "string"), ("Description", .str ""),
          ("Mandatory", .num 1)])
  ∧ endpointParameter (.obj [("Mandatory", .str "true")])
      = some (.obj [("ParameterKey", .str ""), ("ParameterValue", .str ""),
          ("DataType", .str "string"), ("Description", .str ""),
          ("Mandatory", .str "true")])
  ∧ JValue.str "true" ≠ JValue.bool true
  ∧ JValue.num 1 ≠ JValue.bool true :=
  ⟨rfl, rfl, rfl, fun h => JValue.noConfusion h, fun h => JValue.noConfusion h⟩

/-- Claim C7 amended: the `Mandatory` field of a normalized record is the
upstream value copied through unchanged (with fallback key `Required`, then
default `False`, in the enhanced version, and default `False` in the
endpoint version); no bool/int/string coercion is performed. -/
theorem mandatory_passthrough_amended :
    ∀ (v : JValue) (rest : List (String × JValue)),
      (cleanConfig (.obj (("Mandatory", v) :: rest))).bind
          (fun r => jField r "Mandatory") = some v
      ∧ (endpointParameter (.obj (("Mandatory", v) :: rest))).bind
          (fun r => jField r "Mandatory") = some v
      ∧ (cleanConfig (.obj [])).bind (fun r => jField r "Mandatory")
          = some (.bool false)
      ∧ (cleanConfig (.obj [("Required", .bool true)])).bind
          (fun r => jField r "Mandatory") = some (.bool true)
      ∧ (endpointParameter (.obj [])).bind (fun r => jField r "Mandatory")
          = some (.bool false) := by
  intro v rest
  exact ⟨rfl, rfl, rfl, rfl, rfl⟩

/-- Claim C8 fails on the code: a dict record with no keys at all is not
dropped; it is kept with every field defaulted, so the returned sequence
contains a record whose ParameterKey is the empty string. -/
theorem record_drop_counterexample :
    enhancedGetIflowConfigurations true
        [.resp 200 (some (.obj [("results", .arr [.obj []])]))]
      = ⟨.arr [.obj [("ParameterKey", .str ""), ("ParameterValue", .str ""),
          ("DataType", .str "string"), ("Description", .str ""),
          ("Mandatory", .bool false)]], 1, 0⟩
  ∧ jField (.obj [("ParameterKey", .str ""), ("ParameterValue", .str ""),
        ("DataType", .str "string"), ("Description", .str ""),
        ("Mandatory", .bool false)]) "ParameterKey" = some (.str "") :=
  ⟨rfl, rfl⟩

/-- Claim C8 amended: the normalization loop never fails; it drops exactly
the upstream records that are not dicts, and keeps every dict record —
substituting defaults for missing keys — so records with an empty
ParameterKey can appear in the output. -/
theorem record_drop_amended :
    (∀ c : JValue, (cleanConfig c).isSome = c.isObj)
  ∧ (∀ xs : List JValue,
      (cleanConfigurations (.arr xs)).length = (xs.filter JValue.isObj).length)
  ∧ cleanConfigurations (.arr [.obj [], .str "x", .num 3, .null, .arr [], .bool true])
      = [.obj [("ParameterKey", .str ""), ("ParameterValue", .str ""),
          ("DataType", .str "string"), ("Description", .str ""),
          ("Mandatory", .bool false)]] :=
  ⟨cleanConfig_isSome, cleanConfigurations_arr_length, rfl⟩

/-- Claim C5: a request answered with 401 triggers exactly one token
refresh and exactly one retried request before the operation gives up, in
`_make_authenticated_request` (entered with a valid cached token) and in the
enhanced configuration fetch, whatever the retry's outcome. -/
theorem unauthorized_retry_confirmed :
    ∀ (b : Option JValue) (o2 : HttpOutcome) (rest : List HttpOutcome),
      (makeAuthenticatedRequest true true (.resp 401 b :: o2 :: rest)).refreshes = 1
      ∧ (makeAuthenticatedRequest true true (.resp 401 b :: o2 :: rest)).requests = 2
      ∧ (enhancedGetIflowConfigurations true (.resp 401 b :: o2 :: rest)).refreshes = 1
      ∧ (enhancedGetIflowConfigurations true (.resp 401 b :: o2 :: rest)).requests = 2 := by
  intro b o2 rest
  cases o2 with
  | timeout => exact ⟨rfl, rfl, rfl, rfl⟩
  | resp s2 b2 =>
    refine ⟨?_, ?_, ?_, ?_⟩ <;>
      simp only [makeAuthenticatedRequest, enhancedGetIflowConfigurations, scriptAt,
        List.get?] <;>
      norm_num <;>
      split <;>
      first
        | rfl
        | (cases b2 <;> rfl)

/-- Claim C3 fails on the code: `SAPClient.get_iflow_configurations` issues
a single request — on a script of three consecutive 500s it stops after one
request and returns the empty list instead of raising after three attempts,
and on two 500s followed by a good 200 it likewise returns the empty list
after one request instead of the parsed records;
`_make_authenticated_request` raises on the first 500 without retrying. -/
theorem fetch_no_retry_counterexample :
    (sapGetIflowConfigurations [.resp 500 none, .resp 500 none, .resp 500 none]).2 ≠ 3
  ∧ sapGetIflowConfigurations [.resp 500 none, .resp 500 none, .resp 500 none]
      = (.arr [], 1)
  ∧ sapGetIflowConfigurations
      [.resp 500 none, .resp 500 none,
       .resp 200 (some (.obj [("d", .obj [("results", .arr [.obj [("Key", .str "a")]])])]))]
      = (.arr [], 1)
  ∧ (makeAuthenticatedRequest true true
      [.resp 500 none, .resp 500 none, .resp 500 none]).requests = 1 := by
  exact ⟨by decide, rfl, rfl, rfl⟩

/-- Claim C3 amended: there is no retry, no backoff, and no UpstreamError:
on a 500 (or a timeout) the configuration fetch issues exactly one request
and returns the empty list without raising, and
`_make_authenticated_request` raises on the first 500 with exactly one
request issued. -/
theorem fetch_no_retry_amended :
    ∀ (b : Option JValue) (rest : List HttpOutcome),
      sapGetIflowConfigurations (.resp 500 b :: rest) = (.arr [], 1)
      ∧ sapGetIflowConfigurations (.timeout :: rest) = (.arr [], 1)
      ∧ enhancedGetIflowConfigurations true (.resp 500 b :: rest) = ⟨.arr [], 1, 0⟩
      ∧ makeAuthenticatedRequest true true (.resp 500 b :: rest)
          = ⟨.error "API request failed", 1, 0⟩ := by
  intro b rest
  exact ⟨rfl, rfl, rfl, rfl⟩

/-- Claim C1 fails on the code: `_get_auth_headers` reuses the cached
`oauth_token` under the 60-second buffer of `_is_token_expired`, not the
5-minute buffer — with a token expiring in 120 seconds the cached token is
attached to the outbound request although now is past
`expires_at - refresh_buffer`. -/
theorem token_buffer_counterexample :
    authHeadersUsesCachedToken "cached-token" 120 0 = true
  ∧ ¬ ((0 : Int) < 120 - refreshBufferSeconds) := by
  exact ⟨rfl, by decide⟩

/-- Claim C1 amended: the 5-minute buffer governs only the `token_info`
path (`_is_token_valid`, used by `get_token` and
`_make_authenticated_request`); requests built by `_get_auth_headers` reuse
the cached token exactly when it is nonempty and more than 60 seconds from
expiry, so a token within the final 5 minutes (but not the final 60
seconds) of its life is still used. -/
theorem token_buffer_amended :
    (∀ (tok : String) (e now : Int),
        isTokenValid (some ⟨tok, some e⟩) now = decide (now < e - refreshBufferSeconds))
  ∧ (∀ (now : Int), isTokenValid none now = false)
  ∧ (∀ (tok : String) (now : Int), isTokenValid (some ⟨tok, none⟩) now = false)
  ∧ (∀ (tok : String) (tokenExpiry now : Int),
        authHeadersUsesCachedToken tok tokenExpiry now
          = (!(tok = "") && decide (now < tokenExpiry - 60)))
  ∧ (∃ (tok : String) (tokenExpiry now : Int),
        authHeadersUsesCachedToken tok tokenExpiry now = true
        ∧ ¬ (now < tokenExpiry - refreshBufferSeconds)) := by
  refine ⟨fun tok e now => rfl, fun now => rfl, fun tok now => rfl,
    fun tok e now => ?_, ⟨"t", 120, 0, rfl, by decide⟩⟩
  unfold authHeadersUsesCachedToken isTokenExpired
  congr 1
  rw [← decide_not, decide_eq_decide]
  omega

/-- Claim C2 fails on the code: `get_token` takes no lock and performs no
re-check, so two concurrent callers that both run the validity check before
either POST completes issue two POSTs to the token endpoint, not one. -/
theorem token_refresh_race_counterexample :
    (runSchedule (initTokenSys 2) [0, 1, 0, 1]).posts = 2
  ∧ (runSchedule (initTokenSys 2) [0, 1, 0, 1]).posts ≠ 1
  ∧ (runSchedule (initTokenSys 2) [0, 1, 0, 1]).callers = [.done, .done] := by
  exact ⟨by decide, by decide, by decide⟩

/-- Claim C2 amended: token refresh is not serialized — there is no lock
and no double-checked re-check in `get_token`; with no valid token cached,
every caller whose validity check runs before the first refresh completes
issues its own POST (two interleaved callers issue two POSTs, three issue
three, four issue four), and only fully sequential execution results in a
single POST. -/
theorem token_refresh_race_amended :
    (runSchedule (initTokenSys 2) [0, 1, 0, 1]).posts = 2
  ∧ (runSchedule (initTokenSys 3) [0, 1, 2, 0, 1, 2]).posts = 3
  ∧ (runSchedule (initTokenSys 4) [0, 1, 2, 3, 0, 1, 2, 3]).posts = 4
  ∧ (runSchedule (initTokenSys 2) [0, 0, 1, 1]).posts = 1
  ∧ (runSchedule (initTokenSys 2) [0, 1, 0, 1]).callers = [.done, .done]
  ∧ (runSchedule (initTokenSys 2) [0, 0, 1, 1]).callers = [.done, .done]
  ∧ (runSchedule (initTokenSys 4) [0, 1, 2, 3, 0, 1, 2, 3]).callers
      = [.done, .done, .done, .done] := by
  refine ⟨by decide, by decide, by decide, by decide, by decide, by decide, by decide⟩

/-- Claim C9: saving iFlow configurations writes one CSV file named with
the environment and a timestamp and one environment-specific latest file,
each with exactly the fixed 8-column header (Environment, Timestamp,
iFlow_ID, iFlow_Name, iFlow_Version, Parameter_Key, Parameter_Value,
Saved_At) and one row per (iflow, configuration parameter) pair of the
request, in request order. -/
theorem csv_save_confirmed :
    ∀ (req : SaveConfigurationRequest) (nowStamp savedAt : String),
      (saveIflowConfigurations req nowStamp savedAt).map CsvFile.filename
        = ["iflow_configurations_" ++ req.environment ++ "_" ++ nowStamp ++ ".csv",
           "iflow_configurations_" ++ req.environment ++ "_latest.csv"]
      ∧ (saveIflowConfigurations req nowStamp savedAt).map CsvFile.header
          = [csvHeaders, csvHeaders]
      ∧ csvHeaders = ["Environment", "Timestamp", "iFlow_ID", "iFlow_Name",
          "iFlow_Version", "Parameter_Key", "Parameter_Value", "Saved_At"]
      ∧ csvHeaders.length = 8
      ∧ (∀ r : CsvRow, r.cells.length = csvHeaders.length)
      ∧ (saveIflowConfigurations req nowStamp savedAt).map CsvFile.rows
          = [req.iflows.flatMap (fun fl => fl.configurations.map (paramRow req savedAt fl)),
             req.iflows.flatMap (fun fl => fl.configurations.map (paramRow req savedAt fl))]
      ∧ (buildCsvData req savedAt).length
          = (req.iflows.map (fun fl => fl.configurations.length)).sum := by
  intro req nowStamp savedAt
  refine ⟨rfl, rfl, rfl, rfl, fun r => rfl, ?_, ?_⟩
  · simp [saveIflowConfigurations, buildCsvData_eq]
  · simp only [buildCsvData_eq, List.length_flatMap, List.map_map]
    simp [Function.comp_def]

/-- Claim C10: `get_integration_packages` never propagates an error — on
every failure of the upstream request or of payload parsing it returns the
fixed two-element demo list with ids demo_package_001 and demo_package_002,
and a tenant genuinely answering with exactly those packages produces an
output the caller cannot distinguish from the fallback. -/
theorem demo_packages_fallback_confirmed :
    ∀ (err now : String),
      getIntegrationPackages (.error err) now = demoPackages now
      ∧ (demoPackages now).map IntegrationPackage.id
          = ["demo_package_001", "demo_package_002"]
      ∧ (demoPackages now).length = 2
      ∧ getIntegrationPackages
          (.ok (.obj [("d", .obj [("results", .arr [
            .obj [("Id", .str "demo_package_001"),
                  ("Name", .str "Demo Customer Integration Package"),
                  ("Description", .str "Sample integration package for testing"),
                  ("Version", .str "1.0.0"), ("ModifiedDate", .str now),
                  ("ModifiedBy", .str "demo_user")],
            .obj [("Id", .str "demo_package_002"),
                  ("Name", .str "Demo Sales Integration Package"),
                  ("Description", .str "Sales data integration package"),
                  ("Version", .str "1.1.0"), ("ModifiedDate", .str now),
                  ("ModifiedBy", .str "demo_user")]])])]))
          now
        = demoPackages now := by
  intro err now
  exact ⟨rfl, rfl, rfl, rfl⟩
